import Mathlib

/-!
Shallow embedding of `samples/uhid/uhid-example.c`: a user-space program that
emulates a 3-button mouse with wheel over the kernel uhid character device.
Pure data is modelled directly; the stateful event loop is modelled by explicit
state passing over a list of poll-cycle outcomes; I/O results (read/write
return values) are inputs to the model.
-/

namespace Uhid

/-- Linux errno values used by the program (`ECANCELED`, `EFAULT`). -/
def ECANCELED : Int := 125

def EFAULT : Int := 14

/-- Event type tags of `enum uhid_event_type` from `<linux/uhid.h>` (legacy interface used
by this program). -/
def UHID_CREATE : Nat := 0

def UHID_DESTROY : Nat := 1

def UHID_START : Nat := 2

def UHID_STOP : Nat := 3

def UHID_OPEN : Nat := 4

def UHID_CLOSE : Nat := 5

def UHID_OUTPUT : Nat := 6

def UHID_OUTPUT_EV : Nat := 7

def UHID_INPUT : Nat := 8

/-- Bus constant `BUS_USB` from `<linux/input.h>`. -/
def BUS_USB : Nat := 3

/-- The six file-scope mutable variables of the program
(`btn1_down`, `btn2_down`, `btn3_down`, `abs_hor`, `abs_ver`, `wheel`).
The deltas are C `signed char`; the embedding keeps them as `Int`
(the program only ever stores -20, 20, 1, -1 and 0, all in range). -/
structure InputState where
  btn1_down : Bool
  btn2_down : Bool
  btn3_down : Bool
  abs_hor : Int
  abs_ver : Int
  wheel : Int
deriving DecidableEq, Repr

/-- Initial values of the file-scope variables (C zero-initialization of
statics). -/
def initState : InputState :=
  { btn1_down := false, btn2_down := false, btn3_down := false,
    abs_hor := 0, abs_ver := 0, wheel := 0 }

/-- Two's-complement byte of a signed value, as stored into the `__u8`
report array (`ev.u.input.data[i] = abs_hor;` etc.). -/
def byteOfSigned (x : Int) : Nat := (x % 256).toNat

/-- Byte 0 of the input report: `data[0] |= 0x1 / 0x2 / 0x4` for the three
buttons (`send_event`, lines 203-208). -/
def buttonMask (s : InputState) : Nat :=
  (if s.btn1_down then 1 else 0) |||
  (if s.btn2_down then 2 else 0) |||
  (if s.btn3_down then 4 else 0)

/-- The 4 report bytes `send_event` stores into `ev.u.input.data[0..3]`:
button bitmask, then horizontal, vertical and wheel deltas. -/
def reportBytes (s : InputState) : List Nat :=
  [buttonMask s, byteOfSigned s.abs_hor, byteOfSigned s.abs_ver,
   byteOfSigned s.wheel]

/-- One arm of the `switch (buf[i])` in `keyboard`: either a command that
updates state, emits a report and then applies a post-write update
(`after` is the delta reset for motion/wheel commands, the identity for
button toggles), or the quit command `q`, or an invalid byte. -/
inductive Cmd where
  | emit (apply : InputState → InputState) (after : InputState → InputState)
  | quit
  | invalid

/-- The `switch (buf[i])` dispatch of `keyboard` (lines 232-297), by ASCII
code: 49-51 are `1` `2` `3`, 97 `a`, 100 `d`, 119 `w`, 115 `s`, 114 `r`,
102 `f`, 113 `q`. -/
def parseCmd (c : Nat) : Cmd :=
  if c = 49 then .emit (fun s => { s with btn1_down := !s.btn1_down }) id
  else if c = 50 then .emit (fun s => { s with btn2_down := !s.btn2_down }) id
  else if c = 51 then .emit (fun s => { s with btn3_down := !s.btn3_down }) id
  else if c = 97 then
    .emit (fun s => { s with abs_hor := -20 }) (fun s => { s with abs_hor := 0 })
  else if c = 100 then
    .emit (fun s => { s with abs_hor := 20 }) (fun s => { s with abs_hor := 0 })
  else if c = 119 then
    .emit (fun s => { s with abs_ver := -20 }) (fun s => { s with abs_ver := 0 })
  else if c = 115 then
    .emit (fun s => { s with abs_ver := 20 }) (fun s => { s with abs_ver := 0 })
  else if c = 114 then
    .emit (fun s => { s with wheel := 1 }) (fun s => { s with wheel := 0 })
  else if c = 102 then
    .emit (fun s => { s with wheel := -1 }) (fun s => { s with wheel := 0 })
  else if c = 113 then .quit
  else .invalid

/-- Processing of one byte of the `keyboard` buffer. `r` is the value
`send_event` would return for the write this byte triggers (0 on success,
negative on failure); it is ignored when the byte triggers no write.
Returns the state after the byte (including the delta reset, which the C
code performs before checking the write result), the report bytes passed
to the write if one was attempted, and the loop-control code: 0 to
continue with the next byte, nonzero to return from `keyboard`. -/
def stepByte (r : Int) (s : InputState) (c : Nat) :
    InputState × Option (List Nat) × Int :=
  match parseCmd c with
  | .invalid => (s, none, 0)
  | .quit => (s, none, -ECANCELED)
  | .emit apply after =>
    let s1 := apply s
    (after s1, some (reportBytes s1), r)

/-- Result of a `keyboard` call: final variable state, the report byte
blocks passed to `uhid_write` in order, and the return value. -/
structure KbResult where
  state : InputState
  sent : List (List Nat)
  ret : Int
deriving DecidableEq, Repr

/-- The `for` loop of `keyboard` (lines 231-300) over the bytes read from
stdin. `wres` is the stream of `uhid_write` results consumed by successive
`send_event` calls (missing entries mean success, 0). A nonzero write
result makes `keyboard` return it at once, after the delta reset but
before looking at any further byte. -/
def processBytes : InputState → List Int → List Nat → KbResult
  | s, _, [] => { state := s, sent := [], ret := 0 }
  | s, wres, c :: rest =>
    match stepByte (wres.headD 0) s c with
    | (s1, none, code) =>
      if code = 0 then processBytes s1 wres rest
      else { state := s1, sent := [], ret := code }
    | (s1, some rp, code) =>
      if code = 0 then
        let k := processBytes s1 wres.tail rest
        { state := k.state, sent := rp :: k.sent, ret := k.ret }
      else { state := s1, sent := [rp], ret := code }

/-- Outcome of the `read` on stdin in `keyboard` (lines 222-229): a
zero-length read (HUP), a negative return with the given errno, or the
bytes actually read. -/
inductive StdinRead where
  | hup
  | rerr (e : Int)
  | bytes (bs : List Nat)
deriving DecidableEq, Repr

/-- The whole `keyboard` function: wraps `processBytes` with the stdin read
error handling (`ret == 0` gives `-EFAULT`, `ret < 0` gives `-errno`). -/
def keyboard (wres : List Int) (s : InputState) : StdinRead → KbResult
  | .hup => { state := s, sent := [], ret := -EFAULT }
  | .rerr e => { state := s, sent := [], ret := -e }
  | .bytes bs => processBytes s wres bs

/-- Outcome of the `read` on the uhid device in `event` (lines 149-160): a
zero-length read, a negative return with the given errno, or `n` bytes
read whose envelope carries type tag `t`. -/
inductive TransportRead where
  | hup
  | rerr (e : Int)
  | chunk (n : Nat) (t : Nat)
deriving DecidableEq, Repr

/-- Classification the `switch (ev.type)` of `event` performs (lines
162-183): the six known kernel-originated tags are each logged; any other
tag falls to `default` and is logged as an invalid event. -/
inductive KernelMsg where
  | start
  | stop
  | openEv
  | closeEv
  | output
  | outputEv
  | invalid (t : Nat)
deriving DecidableEq, Repr

/-- The tag dispatch of `event`. -/
def classify (t : Nat) : KernelMsg :=
  if t = UHID_START then .start
  else if t = UHID_STOP then .stop
  else if t = UHID_OPEN then .openEv
  else if t = UHID_CLOSE then .closeEv
  else if t = UHID_OUTPUT then .output
  else if t = UHID_OUTPUT_EV then .outputEv
  else .invalid t

/-- The `event` function (lines 143-186). `envSize` is `sizeof(struct
uhid_event)` (ABI dependent, so kept as a parameter). A zero-length read
returns `-EFAULT`; a failed read returns `-errno`; a read of any size
other than the envelope size returns `-EFAULT` without ever inspecting the
partially-filled envelope; a full-size read classifies the tag and always
returns success (the event, known or invalid, is only logged). -/
def event (envSize : Nat) : TransportRead → Except Int KernelMsg
  | .hup => .error (-EFAULT)
  | .rerr e => .error (-e)
  | .chunk n t => if n = envSize then .ok (classify t) else .error (-EFAULT)

/-- The integer `event` returns to `main`: 0 exactly when no error. -/
def eventRet (envSize : Nat) (tr : TransportRead) : Int :=
  match event envSize tr with
  | .error e => e
  | .ok _ => 0

/-- Return computation of `uhid_write` (lines 98-113): the `write` return value is either an
error with errno `e` or a count `n` of bytes written; the function returns
`-errno`, `-EFAULT` on a short write, or 0. -/
inductive WriteOutcome where
  | werr (e : Int)
  | wrote (n : Nat)
deriving DecidableEq, Repr

def uhid_write (envSize : Nat) : WriteOutcome → Int
  | .werr e => -e
  | .wrote n => if n = envSize then 0 else -EFAULT

/-- One iteration of `main`'s poll loop: the flags and read outcomes the
single `poll` call reports. `stdinReady`/`uhidReady` are `none` when the
corresponding fd has no `POLLIN`. -/
structure PollCycle where
  pollErr : Bool
  hupStdin : Bool
  hupUhid : Bool
  stdinReady : Option StdinRead
  uhidReady : Option TransportRead
deriving DecidableEq, Repr

/-- Why `main`'s `while (1)` loop broke out (lines 351-376). `kbErr r`
covers every nonzero `keyboard` return, including the user quit
`r = -ECANCELED`. -/
inductive BreakReason where
  | pollErr
  | hupStdin
  | hupUhid
  | kbErr (r : Int)
  | evErr (r : Int)
deriving DecidableEq, Repr

/-- One iteration of the loop body, in the C order: poll error, stdin HUP,
uhid HUP, then `keyboard` if stdin is readable (breaking on nonzero
return before the uhid branch runs), then `event` if the device is
readable. Returns the break reason if the iteration breaks, the reports
written, the new state and the remaining write-result stream. -/
def loopIter (envSize : Nat) (wres : List Int) (s : InputState)
    (cyc : PollCycle) :
    Option BreakReason × List (List Nat) × InputState × List Int :=
  if cyc.pollErr then (some .pollErr, [], s, wres)
  else if cyc.hupStdin then (some .hupStdin, [], s, wres)
  else if cyc.hupUhid then (some .hupUhid, [], s, wres)
  else
    let kb :=
      match cyc.stdinReady with
      | none => (none, [], s, wres)
      | some sr =>
        let k := keyboard wres s sr
        ((if k.ret = 0 then none else some (BreakReason.kbErr k.ret)),
         k.sent, k.state, wres.drop k.sent.length)
    match kb with
    | (some br, sent, s1, w1) => (some br, sent, s1, w1)
    | (none, sent, s1, w1) =>
      match cyc.uhidReady with
      | none => (none, sent, s1, w1)
      | some tr =>
        let r := eventRet envSize tr
        ((if r = 0 then none else some (.evErr r)), sent, s1, w1)

/-- The poll loop of `main` over a list of poll-cycle outcomes: returns the
break reason (`none` if the loop is still running when the list ends),
the concatenation of all report blocks written, and the final state. -/
def runLoop (envSize : Nat) :
    List Int → InputState → List PollCycle →
    Option BreakReason × List (List Nat) × InputState
  | _, s, [] => (none, [], s)
  | wres, s, cyc :: rest =>
    match loopIter envSize wres s cyc with
    | (some br, sent, s1, _) => (some br, sent, s1)
    | (none, sent, s1, w1) =>
      let k := runLoop envSize w1 s1 rest
      (k.1, sent ++ k.2.1, k.2.2)

def EXIT_SUCCESS : Nat := 0

def EXIT_FAILURE : Nat := 1

/-- The exit-status logic of `main` (lines 303-381): `EXIT_FAILURE` when
the device cannot be opened or the initial `create` write fails; otherwise
run the loop, and on any break (quit, I/O error, HUP, poll error) issue
the best-effort destroy and return `EXIT_SUCCESS`. Returns the exit code
paired with the loop's break reason, or `none` if the loop never breaks
within the given cycles. -/
def mainModel (openOk : Bool) (createRes : Int) (envSize : Nat)
    (wres : List Int) (cycles : List PollCycle) :
    Option (Nat × Option BreakReason) :=
  if openOk = false then some (EXIT_FAILURE, none)
  else if createRes = 0 then
    match (runLoop envSize wres initState cycles).1 with
    | none => none
    | some br => some (EXIT_SUCCESS, some br)
  else some (EXIT_FAILURE, none)

/-- The `struct uhid_event` as the encoders populate it. The C union of
request payloads is modelled as a product: this is faithful for the
program at hand because every encoder first `memset`s the whole event to
zero and then writes fields of exactly one variant, so the fields of the
other variant read as the zero bytes they overlay. Fixed-size byte arrays
(`name[128]`, `phys[64]`, `uniq[64]`, `data[UHID_DATA_MAX]`) are byte
functions indexed from 0; `rd_data` is a pointer value. -/
structure UhidEvent where
  etype : Nat
  create_name : Nat → Nat
  create_phys : Nat → Nat
  create_uniq : Nat → Nat
  create_rd_data : Nat
  create_rd_size : Nat
  create_bus : Nat
  create_vendor : Nat
  create_product : Nat
  create_version : Nat
  create_country : Nat
  input_data : Nat → Nat
  input_size : Nat

/-- The all-zero event. -/
def zeroEvent : UhidEvent :=
  { etype := 0, create_name := fun _ => 0, create_phys := fun _ => 0,
    create_uniq := fun _ => 0, create_rd_data := 0, create_rd_size := 0,
    create_bus := 0, create_vendor := 0, create_product := 0,
    create_version := 0, create_country := 0, input_data := fun _ => 0,
    input_size := 0 }

/-- Semantics of `memset(&ev, 0, sizeof(ev))`: whatever stale stack contents the event
held, afterwards every byte is zero. -/
def memsetZero (_stale : UhidEvent) : UhidEvent := zeroEvent

/-- Semantics of `strcpy(dst, src)` restricted to a destination field of
capacity `cap` bytes: `strcpy` itself has no bound, so when the source
string together with its NUL terminator does not fit the copy writes past
the field and the result is no well-defined field value (`none`).
Otherwise the source bytes land at offsets `0..len-1`, a NUL at `len`, and
the bytes beyond keep the destination's previous contents. -/
def strcpyInto (cap : Nat) (dst : Nat → Nat) (src : List Nat) :
    Option (Nat → Nat) :=
  if src.length + 1 ≤ cap then
    some (fun i =>
      if h : i < src.length then src.get ⟨i, h⟩
      else if i = src.length then 0
      else dst i)
  else none

/-- The device name `create` copies: `"test-uhid-device"` (16 bytes). -/
def deviceName : List Nat :=
  [116, 101, 115, 116, 45, 117, 104, 105, 100, 45, 100, 101, 118, 105, 99,
   101]

/-- The report descriptor `rdesc` (52 bytes, lines 88-96). -/
def rdesc : List Nat :=
  [0x05, 0x01, 0x09, 0x02, 0xa1, 0x01, 0x09, 0x01,
   0xa1, 0x00, 0x05, 0x09, 0x19, 0x01, 0x29, 0x03,
   0x15, 0x00, 0x25, 0x01, 0x95, 0x03, 0x75, 0x01,
   0x81, 0x02, 0x95, 0x01, 0x75, 0x05, 0x81, 0x01,
   0x05, 0x01, 0x09, 0x30, 0x09, 0x31, 0x09, 0x38,
   0x15, 0x80, 0x25, 0x7f, 0x75, 0x08, 0x95, 0x03,
   0x81, 0x06, 0xc0, 0xc0]

/-- The envelope `create` builds (lines 115-131): zero the event, set the
type tag, `strcpy` the fixed 16-byte name into the zeroed 128-byte field
(it fits, so the unbounded copy equals its in-capacity semantics), and set
the descriptor pointer/size and identity numbers. `rdescPtr` stands for
the address of the static `rdesc` array. -/
def createEvent (stale : UhidEvent) (rdescPtr : Nat) : UhidEvent :=
  let ev := memsetZero stale
  { ev with
    etype := UHID_CREATE,
    create_name := (strcpyInto 128 ev.create_name deviceName).getD
      ev.create_name,
    create_rd_data := rdescPtr,
    create_rd_size := rdesc.length,
    create_bus := BUS_USB,
    create_vendor := 0x15d9,
    create_product := 0x0a37,
    create_version := 0,
    create_country := 0 }

/-- The envelope `destroy` builds (lines 133-141): zeroed, type tag only. -/
def destroyEvent (stale : UhidEvent) : UhidEvent :=
  { memsetZero stale with etype := UHID_DESTROY }

/-- The envelope `send_event` builds (lines 195-214): zeroed, input type,
size 4, and the four report bytes of the current state. -/
def inputEvent (stale : UhidEvent) (s : InputState) : UhidEvent :=
  let ev := memsetZero stale
  { ev with
    etype := UHID_INPUT,
    input_size := 4,
    input_data := fun i =>
      if i = 0 then buttonMask s
      else if i = 1 then byteOfSigned s.abs_hor
      else if i = 2 then byteOfSigned s.abs_ver
      else if i = 3 then byteOfSigned s.wheel
      else ev.input_data i }

/-- Modelled from the spec: the `DeviceLifecycle` state machine of spec
section 4.3. The C program does not materialize this state (its `event`
handler only logs the kernel messages), so the machine is taken from the
spec's transition list: Create from Uninitialized gives Created; kernel
Start/Stop move between Active and Inactive; Open/Close are informational
and change nothing; Destroy from any state gives the terminal Destroyed;
a combination the spec leaves undefined changes nothing. -/
inductive LifeState where
  | uninitialized
  | created
  | active
  | inactive
  | destroyed
deriving DecidableEq, Repr

/-- Modelled from the spec: the events that drive `DeviceLifecycle`. -/
inductive LifeEvent where
  | createEv
  | kernelStart
  | kernelStop
  | kernelOpen
  | kernelClose
  | destroyEv
deriving DecidableEq, Repr

/-- Modelled from the spec: the transition function of section 4.3. -/
def lifeStep : LifeState → LifeEvent → LifeState
  | .destroyed, _ => .destroyed
  | _, .destroyEv => .destroyed
  | .uninitialized, .createEv => .created
  | .created, .kernelStart => .active
  | .active, .kernelStop => .inactive
  | .inactive, .kernelStart => .active
  | s, _ => s

/-- The list of states visited while consuming a list of lifecycle events,
the start state included. -/
def lifeTrace (s : LifeState) (es : List LifeEvent) : List LifeState :=
  es.scanl lifeStep s

/-- A poll cycle in which only the uhid transport is readable, with the
given read outcome, and nothing errs or hangs up. -/
def kernelCycle (tr : TransportRead) : PollCycle :=
  { pollErr := false, hupStdin := false, hupUhid := false,
    stdinReady := none, uhidReady := some tr }

/-- A poll cycle in which stdin is readable and delivers the bytes of
`"1a1q"` (ASCII 49, 97, 49, 113); the transport side is arbitrary. -/
def c1Cycle (ur : Option TransportRead) : PollCycle :=
  { pollErr := false, hupStdin := false, hupUhid := false,
    stdinReady := some (.bytes [49, 97, 49, 113]), uhidReady := ur }

/-- A poll cycle in which stdin is readable and delivers only the quit
byte. -/
def qCycle : PollCycle :=
  { pollErr := false, hupStdin := false, hupUhid := false,
    stdinReady := some (.bytes [113]), uhidReady := none }

/-- A poll cycle that only carries kernel-side traffic the loop survives:
no poll error, no hangup, stdin not readable, and the transport either not
readable or delivering a read on which `event` succeeds. -/
def benign (envSize : Nat) (cyc : PollCycle) : Prop :=
  cyc.pollErr = false ∧ cyc.hupStdin = false ∧ cyc.hupUhid = false ∧
  cyc.stdinReady = none ∧
  cyc.uhidReady.elim True (fun tr => eventRet envSize tr = 0)

/-- Claim C3 (confirmed): for every motion or wheel command byte
(`a` 97, `d` 100, `w` 119, `s` 115, `r` 114, `f` 102), the state in which
`keyboard` continues (or returns) after processing that byte has the
corresponding delta field equal to 0, for every prior state and every
write result `r` — the reset happens before the write result is even
checked. `processBytes` consumes each byte through `stepByte`, so this is
the state in force before the next command byte is read. -/
theorem transient_reset_c3 (r : Int) (s : InputState) :
    (stepByte r s 97).1.abs_hor = 0 ∧ (stepByte r s 100).1.abs_hor = 0 ∧
    (stepByte r s 119).1.abs_ver = 0 ∧ (stepByte r s 115).1.abs_ver = 0 ∧
    (stepByte r s 114).1.wheel = 0 ∧ (stepByte r s 102).1.wheel = 0 :=
  ⟨rfl, rfl, rfl, rfl, rfl, rfl⟩

/-- Claim C4 (confirmed): the report for button1 and button3 down with
horizontal delta -20 is `[0x05, 0xEC, 0x00, 0x00]`; moreover byte 0 is
always below 8 (bits 3-7 clear) and its bits 0, 1, 2 are exactly the three
button flags. -/
theorem report_encoding_c4 :
    reportBytes { btn1_down := true, btn2_down := false, btn3_down := true,
                  abs_hor := -20, abs_ver := 0, wheel := 0 } =
      [0x05, 0xEC, 0x00, 0x00] ∧
    ∀ s : InputState, buttonMask s < 8 ∧
      (buttonMask s).testBit 0 = s.btn1_down ∧
      (buttonMask s).testBit 1 = s.btn2_down ∧
      (buttonMask s).testBit 2 = s.btn3_down := by
  refine ⟨by decide, ?_⟩
  rintro ⟨b1, b2, b3, h, v, w⟩
  cases b1 <;> cases b2 <;> cases b3 <;>
    refine ⟨?_, ?_, ?_, ?_⟩ <;> simp [buttonMask] <;> decide

/-- Claim C8 (confirmed): toggling a button twice (bytes `1` 49, `2` 50,
`3` 51) restores the flag to its original value, for any intermediate
write results. -/
theorem toggle_involution_c8 (r r1 : Int) (s : InputState) :
    (stepByte r1 (stepByte r s 49).1 49).1.btn1_down = s.btn1_down ∧
    (stepByte r1 (stepByte r s 50).1 50).1.btn2_down = s.btn2_down ∧
    (stepByte r1 (stepByte r s 51).1 51).1.btn3_down = s.btn3_down := by
  obtain ⟨b1, b2, b3, h, v, w⟩ := s
  refine ⟨?_, ?_, ?_⟩ <;> simp [stepByte, parseCmd]

/-- Claim C7 (confirmed, lifecycle modelled from the spec): the event
sequence Create, kernel Start, kernel Stop, Destroy drives the machine
through exactly Uninitialized, Created, Active, Inactive, Destroyed, and
Destroy sends every non-terminal state to the terminal Destroyed state. -/
theorem lifecycle_c7 :
    lifeTrace .uninitialized
        [.createEv, .kernelStart, .kernelStop, .destroyEv] =
      [.uninitialized, .created, .active, .inactive, .destroyed] ∧
    ∀ s : LifeState, s ≠ .destroyed → lifeStep s .destroyEv = .destroyed := by
  refine ⟨by decide, ?_⟩
  intro s _
  cases s <;> rfl

/-- Witness for C7: the Active state is not terminal and Destroy sends it
to Destroyed. -/
theorem lifecycle_c7_witness :
    LifeState.active ≠ LifeState.destroyed ∧
    lifeStep .active .destroyEv = .destroyed :=
  ⟨by decide, lifecycle_c7.2 .active (by decide)⟩

/-- Claim C9 (confirmed): every encoder zeroes the envelope before
populating it, so two calls with equal inputs yield identical envelopes
independently of the stale stack contents, and every byte outside the
populated fields is zero: input report bytes from index 4 on, name bytes
from index 17 on (16 name bytes plus the NUL), the whole `phys` and
`uniq` arrays, and the whole data area of the Destroy envelope. -/
theorem zero_init_c9 (stale1 stale2 : UhidEvent) (s : InputState) (p : Nat) :
    (inputEvent stale1 s = inputEvent stale2 s ∧
     createEvent stale1 p = createEvent stale2 p ∧
     destroyEvent stale1 = destroyEvent stale2) ∧
    (∀ i, (inputEvent stale1 s).input_data (4 + i) = 0) ∧
    (∀ j, (createEvent stale1 p).create_name (17 + j) = 0) ∧
    (∀ j, (createEvent stale1 p).create_phys j = 0) ∧
    (∀ j, (createEvent stale1 p).create_uniq j = 0) ∧
    (∀ j, (destroyEvent stale1).input_data j = 0) := by
  refine ⟨⟨rfl, rfl, rfl⟩, ?_, ?_, fun j => rfl, fun j => rfl, fun j => rfl⟩
  · intro i
    show (if 4 + i = 0 then buttonMask s
          else if 4 + i = 1 then byteOfSigned s.abs_hor
          else if 4 + i = 2 then byteOfSigned s.abs_ver
          else if 4 + i = 3 then byteOfSigned s.wheel
          else zeroEvent.input_data (4 + i)) = 0
    rw [if_neg (by omega), if_neg (by omega), if_neg (by omega),
        if_neg (by omega)]
    rfl
  · intro j
    show (strcpyInto 128 zeroEvent.create_name deviceName).getD
        zeroEvent.create_name (17 + j) = 0
    rw [strcpyInto, if_pos (by decide)]
    show (if h : 17 + j < deviceName.length then _
          else if 17 + j = deviceName.length then 0
          else zeroEvent.create_name (17 + j)) = 0
    rw [dif_neg (by simp [deviceName]; omega),
        if_neg (by simp [deviceName]; omega)]
    rfl

/-- Counterexample for claim C6: the copy `create` performs is `strcpy`,
which does not truncate: a 128-byte source name does not fit the 128-byte
field together with its NUL terminator, so the copy writes past the field
(modelled as `none`) instead of producing a truncated NUL-padded field. -/
theorem strcpy_overflow_c6 :
    strcpyInto 128 (fun _ => 0) (List.replicate 128 65) = none := by
  rw [strcpyInto, if_neg (by simp [List.length_replicate])]

/-- Claim C6 (corrected): for every source name that fits the 128-byte
field with its NUL terminator, the copy into the zeroed field succeeds and
yields the source bytes followed by zeros (NUL padding); sources that do
not fit are not truncated but written past the field. -/
theorem name_copy_c6 (src : List Nat) (hlen : src.length < 128) :
    ∃ f, strcpyInto 128 (fun _ => 0) src = some f ∧
      (∀ i, (hi : i < src.length) → f i = src.get ⟨i, hi⟩) ∧
      (∀ j, f (src.length + j) = 0) := by
  refine ⟨_, by rw [strcpyInto, if_pos (by omega)], fun i hi => dif_pos hi, ?_⟩
  intro j
  show (if h : src.length + j < src.length then _
        else if src.length + j = src.length then 0 else 0) = 0
  rw [dif_neg (by omega)]
  split <;> rfl

/-- Witness for C6 (corrected): the program's fixed name
`"test-uhid-device"` (16 bytes) fits, so the copy succeeds with NUL
padding. -/
theorem name_copy_c6_witness :
    deviceName.length < 128 ∧
    ∃ f, strcpyInto 128 (fun _ => 0) deviceName = some f ∧
      (∀ i, (hi : i < deviceName.length) → f i = deviceName.get ⟨i, hi⟩) ∧
      (∀ j, f (deviceName.length + j) = 0) :=
  ⟨by decide, name_copy_c6 deviceName (by decide)⟩

/-- Claim C5 (confirmed): a transport read of any size other than the
envelope size — a zero-length read included — makes `event` return the
fatal `-EFAULT` without producing any event, whatever tag `t` the partial
buffer carries (a known kernel tag included), and a loop iteration seeing
such a read breaks with that error; a full-size read with an unrecognized
tag `u` is classified as an invalid message, `event` returns success, and
the loop iteration carries on unchanged. -/
theorem event_framing_c5 (envSize n t u : Nat) (hn : n ≠ envSize)
    (h2 : u ≠ UHID_START) (h3 : u ≠ UHID_STOP) (h4 : u ≠ UHID_OPEN)
    (h5 : u ≠ UHID_CLOSE) (h6 : u ≠ UHID_OUTPUT) (h7 : u ≠ UHID_OUTPUT_EV) :
    event envSize .hup = .error (-EFAULT) ∧
    event envSize (.chunk n t) = .error (-EFAULT) ∧
    (∀ wres s rest,
      runLoop envSize wres s (kernelCycle (.chunk n t) :: rest) =
        (some (.evErr (-EFAULT)), [], s)) ∧
    event envSize (.chunk envSize u) = .ok (.invalid u) ∧
    (∀ wres s rest,
      runLoop envSize wres s (kernelCycle (.chunk envSize u) :: rest) =
        runLoop envSize wres s rest) := by
  have hev : event envSize (.chunk n t) = .error (-EFAULT) := by
    simp [event, hn]
  have hok : event envSize (.chunk envSize u) = .ok (.invalid u) := by
    simp [event, classify, h2, h3, h4, h5, h6, h7]
  refine ⟨rfl, hev, ?_, hok, ?_⟩
  · intro wres s rest
    simp [runLoop, loopIter, kernelCycle, eventRet, hev, EFAULT]
  · intro wres s rest
    simp [runLoop, loopIter, kernelCycle, eventRet, hok]

/-- Witness for C5: envelope size 4108, a 0-byte read whose tag bytes
decode as the known tag `UHID_START` (2) — still fatal — and a full-size
read with tag 100, not one of the six known kernel tags. -/
theorem event_framing_c5_witness :
    event 4108 (.chunk 0 UHID_START) = .error (-EFAULT) ∧
    runLoop 4108 [] initState [kernelCycle (.chunk 0 UHID_START)] =
      (some (.evErr (-EFAULT)), [], initState) ∧
    event 4108 (.chunk 4108 100) = .ok (.invalid 100) ∧
    runLoop 4108 [] initState [kernelCycle (.chunk 4108 100)] =
      runLoop 4108 [] initState [] := by
  have h := event_framing_c5 4108 0 UHID_START 100 (by decide) (by decide)
    (by decide) (by decide) (by decide) (by decide) (by decide)
  exact ⟨h.2.1, h.2.2.1 [] initState [], h.2.2.2.1,
    h.2.2.2.2 [] initState []⟩

/-- Claim C10 (confirmed): a quit byte at the head of the remaining buffer
makes `keyboard` return `-ECANCELED` at once, with no report emitted for
it and the following bytes untouched; and more generally, whenever
processing a prefix alone would end with a nonzero return (user quit or a
failed report write), processing the prefix with any further bytes
appended gives exactly the same result — the rest of the buffer is
discarded unprocessed. -/
theorem quit_discard_c10 :
    (∀ s wres rest, processBytes s wres (113 :: rest) =
      { state := s, sent := [], ret := -ECANCELED }) ∧
    (∀ s wres pre rest, (processBytes s wres pre).ret ≠ 0 →
      processBytes s wres (pre ++ rest) = processBytes s wres pre) := by
  constructor
  · intro s wres rest
    rfl
  · intro s wres pre
    induction pre generalizing s wres with
    | nil => intro rest h; exact absurd rfl h
    | cons c pre ih =>
      intro rest h
      rw [List.cons_append]
      rcases hstep : stepByte (wres.headD 0) s c with ⟨s1, rep, code⟩
      rcases rep with _ | rp
      · by_cases hc : code = 0
        · simp only [processBytes, hstep, hc, if_pos rfl] at h ⊢
          exact ih s1 wres rest h
        · simp only [processBytes, hstep, if_neg hc]
      · by_cases hc : code = 0
        · simp only [processBytes, hstep, hc, if_pos rfl] at h ⊢
          rw [ih s1 wres.tail rest h]
        · simp only [processBytes, hstep, if_neg hc]

/-- Witness for C10: with a failing write result for the first byte `a`,
the buffer `[a, 1]` is cut short at the failed write and appending the
byte `1` changes nothing. -/
theorem quit_discard_c10_witness :
    (processBytes initState [-14] [97]).ret ≠ 0 ∧
    processBytes initState [-14] ([97] ++ [49]) =
      processBytes initState [-14] [97] :=
  ⟨by decide, quit_discard_c10.2 initState [-14] [97] [49] (by decide)⟩

/-- Counterexample for claim C1: feeding the bytes `"1a1q"` (all writes
succeeding) produces three Input-report writes, not two — the first `1`
already emits a report with button1 set and all deltas 0, before the `a`
report with the -20 horizontal delta. -/
theorem scenario_c1_counterexample :
    runLoop 4108 [] initState [c1Cycle none] =
      (some (.kbErr (-ECANCELED)),
       [[1, 0, 0, 0], [1, 236, 0, 0], [0, 0, 0, 0]], initState) ∧
    (runLoop 4108 [] initState [c1Cycle none]).2.1.length ≠ 2 := by
  constructor
  · rfl
  · decide

/-- Claim C1 (corrected): feeding the input bytes `"1a1q"` with all report
writes succeeding produces exactly three Input-report writes — button1
set with all deltas 0 after the first `1`; button1 set with horizontal
delta -20 (encoded 0xEC) for `a`, the delta being reset to 0 afterwards;
button1 cleared after the second `1` — and the loop then breaks with the
user-quit return value `-ECANCELED`, whatever kernel-side events the
transport delivered in earlier poll cycles or concurrently in the final
cycle. -/
theorem scenario_c1 (envSize : Nat) (pres : List PollCycle)
    (hb : ∀ cyc ∈ pres, benign envSize cyc) (ur : Option TransportRead) :
    runLoop envSize [] initState (pres ++ [c1Cycle ur]) =
      (some (.kbErr (-ECANCELED)),
       [[1, 0, 0, 0], [1, 236, 0, 0], [0, 0, 0, 0]], initState) := by
  induction pres with
  | nil =>
    rw [List.nil_append]
    rfl
  | cons cyc pres ih =>
    obtain ⟨h1, h2, h3, h4, h5⟩ := hb cyc (List.mem_cons_self cyc pres)
    have hiter : loopIter envSize [] initState cyc =
        (none, [], initState, []) := by
      obtain ⟨pe, hs, hu, sr, urr⟩ := cyc
      simp only at h1 h2 h3 h4 h5
      subst h1 h2 h3 h4
      rcases urr with _ | tr
      · rfl
      · simp only [Option.elim] at h5
        simp [loopIter, h5]
    rw [List.cons_append, runLoop, hiter]
    simp only [List.nil_append]
    exact ih (fun c hc => hb c (List.mem_cons_of_mem cyc hc))

/-- Witness for C1 (corrected): one earlier benign poll cycle delivering a
full-size kernel Start event, then the `"1a1q"` cycle. -/
theorem scenario_c1_witness :
    benign 4108 (kernelCycle (.chunk 4108 2)) ∧
    runLoop 4108 [] initState
        ([kernelCycle (.chunk 4108 2)] ++ [c1Cycle none]) =
      (some (.kbErr (-ECANCELED)),
       [[1, 0, 0, 0], [1, 236, 0, 0], [0, 0, 0, 0]], initState) :=
  ⟨⟨rfl, rfl, rfl, rfl, rfl⟩,
   scenario_c1 4108 [kernelCycle (.chunk 4108 2)]
     (fun cyc hc => by
       rw [List.mem_singleton] at hc
       subst hc
       exact ⟨rfl, rfl, rfl, rfl, rfl⟩)
     none⟩

/-- Counterexample for claim C2: when the loop terminates because the
transport read fails (errno 5, an I/O failure), `main` still falls
through to the best-effort destroy and returns `EXIT_SUCCESS` — the exit
status is 0, not non-zero. -/
theorem exit_code_c2_counterexample :
    mainModel true 0 4108 [] [kernelCycle (.rerr 5)] =
      some (EXIT_SUCCESS, some (.evErr (-5))) ∧
    EXIT_SUCCESS = 0 := by
  constructor
  · rfl
  · rfl

/-- Claim C2 (corrected): whenever the poll loop terminates — for the
user-quit return `-ECANCELED` as well as for any transport read/write
failure, short read, hangup or poll error — the process exits with status
`EXIT_SUCCESS` (0); a non-zero status arises only before the loop, when
opening the device fails or the initial Create write fails. -/
theorem exit_code_c2 (envSize : Nat) (wres : List Int)
    (cycles : List PollCycle) (createRes : Int) (br : BreakReason)
    (hbr : (runLoop envSize wres initState cycles).1 = some br)
    (hcr : createRes ≠ 0) :
    mainModel true 0 envSize wres cycles = some (EXIT_SUCCESS, some br) ∧
    (∀ cr : Int, ∀ w c, mainModel false cr envSize w c =
      some (EXIT_FAILURE, none)) ∧
    mainModel true createRes envSize wres cycles =
      some (EXIT_FAILURE, none) := by
  refine ⟨?_, fun cr w c => rfl, ?_⟩
  · simp [mainModel, hbr]
  · simp [mainModel, hcr]

/-- Witness for C2 (corrected): a session quit by the user (`q` byte)
exits with status 0, and a failed Create write (result -14) exits with
status 1. -/
theorem exit_code_c2_witness :
    (runLoop 4108 [] initState [qCycle]).1 = some (.kbErr (-ECANCELED)) ∧
    (-14 : Int) ≠ 0 ∧
    mainModel true 0 4108 [] [qCycle] =
      some (EXIT_SUCCESS, some (.kbErr (-ECANCELED))) ∧
    mainModel true (-14) 4108 [] [qCycle] = some (EXIT_FAILURE, none) := by
  have h := exit_code_c2 4108 [] [qCycle] (-14) (.kbErr (-ECANCELED))
    (by decide) (by decide)
  exact ⟨by decide, by decide, h.1, h.2.2⟩

end Uhid
